import Mathlib

set_option maxRecDepth 8000

/-!
Verification of the mosquitto dynamic-security authentication plugin
(`src/plugins/dynamic-security/auth.c`).

The file gives a shallow embedding of the four components of the plugin:

* the base64 codec (`dynsec_auth__base64_encode` / `dynsec_auth__base64_decode`,
  which delegate to OpenSSL's base64 BIO with `BIO_FLAGS_BASE64_NO_NL`; the
  BIO transform itself is modelled as standard RFC 4648 base64 with padding
  and no line wrapping, which is what that flag selects);
* the password hasher `dynsec_auth__pw_hash` (PBKDF2-HMAC-SHA512 via OpenSSL;
  the PBKDF2 primitive, the random source and the digest lookup are modelled
  as an explicit environment, since their code is outside the plugin);
* the constant-time comparator `memcmp_const`;
* the basic-auth decision callback `dynsec_auth__basic_auth_callback`,
  including the `WITH_LUA` post-decision notification block, whose Lua
  `pcall` outcome is modelled as an `Option Bool` parameter
  (`none` = no Lua state registered / `userdata == NULL`,
  `some true` = the Lua call succeeded, `some false` = `lua_pcall` failed).

Bytes are modelled as `Nat` values below 256, C strings as `String` or
`List Char`, buffers as `List Nat`, and the C `int` return codes as the
inductive `MosqErr`.
-/

namespace DynsecAuth

/-! ## Base64 codec -/

/-- The standard base64 alphabet, in order: value `v` (0 ≤ v < 64) is encoded
as `b64chars[v]`. This is the alphabet used by OpenSSL's base64 BIO. -/
def b64chars : List Char :=
  ['A', 'B', 'C', 'D', 'E', 'F', 'G', 'H', 'I', 'J', 'K', 'L', 'M',
   'N', 'O', 'P', 'Q', 'R', 'S', 'T', 'U', 'V', 'W', 'X', 'Y', 'Z',
   'a', 'b', 'c', 'd', 'e', 'f', 'g', 'h', 'i', 'j', 'k', 'l', 'm',
   'n', 'o', 'p', 'q', 'r', 's', 't', 'u', 'v', 'w', 'x', 'y', 'z',
   '0', '1', '2', '3', '4', '5', '6', '7', '8', '9', '+', '/']

/-- Character encoding a 6-bit value. -/
def b64char (v : Nat) : Char := b64chars.getD v '?'

/-- Inverse alphabet lookup: the 6-bit value of a base64 character, or `none`
for a character outside the alphabet (including the pad `=`). -/
def b64inv (ch : Char) : Option Nat := b64chars.findIdx? (fun c => c == ch)

/-- RFC 4648 base64 encoding of a byte list (no line wrapping, standard
padding): three input bytes become four alphabet characters; a final group of
one or two bytes is padded with `==` or `=`. This is what OpenSSL's base64
BIO produces under `BIO_FLAGS_BASE64_NO_NL`, as used by
`dynsec_auth__base64_encode`. -/
def b64encodeBytes : List Nat → List Char
  | [] => []
  | [a] =>
      [b64char (a / 4), b64char (a % 4 * 16), '=', '=']
  | [a, b] =>
      [b64char (a / 4), b64char (a % 4 * 16 + b / 16), b64char (b % 16 * 4), '=']
  | a :: b :: c :: rest =>
      b64char (a / 4) :: b64char (a % 4 * 16 + b / 16) ::
      b64char (b % 16 * 4 + c / 64) :: b64char (c % 64) :: b64encodeBytes rest

/-- RFC 4648 base64 decoding of a character list (no line wrapping): groups of
four characters are decoded to three bytes; a final `=`-padded group yields one
or two bytes; anything else (bad alphabet, length not a multiple of four) is
rejected with `none`. Input after a padded group is ignored, matching the BIO
reader, which stops at the pad. -/
def b64decodeChars : List Char → Option (List Nat)
  | [] => some []
  | p :: q :: r :: s :: rest =>
      match b64inv p, b64inv q with
      | some x, some y =>
          if r = '=' then
            if s = '=' then some [x * 4 + y / 16] else none
          else
            match b64inv r with
            | some z =>
                if s = '=' then
                  some [x * 4 + y / 16, y % 16 * 16 + z / 4]
                else
                  match b64inv s with
                  | some w =>
                      (b64decodeChars rest).map
                        (fun ds => (x * 4 + y / 16) :: (y % 16 * 16 + z / 4) ::
                                   (z % 4 * 64 + w) :: ds)
                  | none => none
            | none => none
      | _, _ => none
  | _ => none

/-- The `dynsec_auth__base64_encode` success path: the NUL-terminated text
written for a byte buffer. (The C function can also fail on allocation
failure, returning 1 with no output; allocation is environmental and not
modelled.) -/
def dynsec_auth__base64_encode (bytes : List Nat) : List Char :=
  b64encodeBytes bytes

/-- Observable outcome of `dynsec_auth__base64_decode`: the `int` return code,
the caller's `*decoded` pointer (`none` = `NULL`) and `*decoded_len`. -/
structure DecodeResult where
  rc : Nat
  decoded : Option (List Nat)
  decoded_len : Int
  deriving DecidableEq, Repr

/-- Result of `BIO_read` on the base64 filter in `dynsec_auth__base64_decode`:
the number of decoded bytes for well-formed input, and a non-positive value
(modelled as 0) when the input does not decode. -/
def bio_read_len (s : List Char) : Int :=
  match b64decodeChars s with
  | some bs => (bs.length : Int)
  | none => 0

/-- Embedding of `dynsec_auth__base64_decode` (auth.c lines 73–114): decode the
input through the base64 BIO; if the decoded length is zero or negative, free
the buffer, set `*decoded = NULL` and `*decoded_len = 0`, and return 1;
otherwise return 0 with the decoded bytes. (BIO/calloc allocation failures are
environmental and not modelled.) -/
def dynsec_auth__base64_decode (s : List Char) : DecodeResult :=
  if bio_read_len s ≤ 0 then
    { rc := 1, decoded := none, decoded_len := 0 }
  else
    { rc := 0, decoded := b64decodeChars s, decoded_len := bio_read_len s }

/-! ## Constant-time comparator -/

/-- Embedding of `memcmp_const` (auth.c lines 158–169): `none` models a NULL
pointer, for which the function returns 1; otherwise it ORs together the XOR
of every byte pair over `len` positions with no early exit, so the result is
0 exactly when all compared bytes agree. -/
def memcmp_const (a b : Option (List Nat)) (len : Nat) : Nat :=
  match a, b with
  | some a, some b =>
      (List.range len).foldl (fun rc i => rc ||| (a.getD i 0 ^^^ b.getD i 0)) 0
  | _, _ => 1

/-! ## Data model

The `struct dynsec__client` layout lives in `dynamic_security.h`, outside the
plugin source; the fields below are the ones `auth.c` reads and writes
(`pw.salt`, `pw.password_hash`, `pw.iterations`, `pw.valid`, `disabled`,
`clientid`), matching the credential record of the spec's data model. -/

/-- Password material of a credential record: the stored salt, stored hash,
work factor and the `valid` flag (`false` models "no password ever set"). -/
structure DynsecPw where
  salt : List Nat
  password_hash : List Nat
  iterations : Int
  valid : Bool
  deriving DecidableEq, Repr

/-- Credential record as used by `auth.c`: optional exact-match client-id
binding, disabled flag, and password material. -/
structure DynsecClient where
  username : String
  clientid : Option String
  disabled : Bool
  pw : DynsecPw
  deriving DecidableEq, Repr

/-- Relevant `MOSQ_ERR_*` return codes of `mosquitto.h` (outside the plugin
source): `success` = `MOSQ_ERR_SUCCESS` (0, ACCEPT), `nomem` =
`MOSQ_ERR_NOMEM` (1, produced by `return !PKCS5_PBKDF2_HMAC(...)` on PBKDF2
failure), `inval` = `MOSQ_ERR_INVAL`, `auth` = `MOSQ_ERR_AUTH` (REJECT),
`unknown` = `MOSQ_ERR_UNKNOWN` (ERROR), `plugin_defer` =
`MOSQ_ERR_PLUGIN_DEFER` (DEFER). -/
inductive MosqErr where
  | success
  | nomem
  | inval
  | auth
  | unknown
  | plugin_defer
  deriving DecidableEq, Repr

/-- Environment for the OpenSSL primitives called by `auth.c`, which are
outside the plugin source: whether `RAND_bytes` succeeds and the salt it
would produce, whether `EVP_get_digestbyname("sha512")` resolves, whether
`PKCS5_PBKDF2_HMAC` returns 1, and the PBKDF2-HMAC-SHA512 derivation itself
as an abstract function of (password, salt, iterations, output length). -/
structure DynsecEnv where
  randOk : Bool
  newSalt : List Nat
  digestOk : Bool
  pbkdf2Ok : Bool
  pbkdf2 : String → List Nat → Int → Nat → List Nat

/-- Modelled from the spec: `PW_DEFAULT_ITERATIONS`, the "current default work
factor" assigned when a new password is set. It is defined in
`dynamic_security.h`, which is outside the plugin source; the claims only
depend on it being positive. -/
def PW_DEFAULT_ITERATIONS : Int := 101

/-! ## Password hasher -/

/-- Tail of `dynsec_auth__pw_hash` (auth.c lines 136–148), after the
salt/iterations selection: validate `iterations ≥ 1` (else `MOSQ_ERR_INVAL`),
store `iterations` on the record, resolve the sha512 digest (else
`MOSQ_ERR_UNKNOWN`), then run PBKDF2 over the password with the record's salt,
writing `password_hash_len` bytes into the caller's buffer; `!PKCS5_...`
yields `MOSQ_ERR_NOMEM` on PBKDF2 failure. The result triple is (return code,
record after the call, caller's hash buffer after the call). -/
def pw_hash_derive (env : DynsecEnv) (client : DynsecClient) (password : String)
    (password_hash : List Nat) (password_hash_len : Nat) (iterations : Int) :
    MosqErr × DynsecClient × List Nat :=
  if iterations < 1 then
    (.inval, client, password_hash)
  else
    let client := { client with pw := { client.pw with iterations := iterations } }
    if env.digestOk then
      if env.pbkdf2Ok then
        (.success, client, env.pbkdf2 password client.pw.salt iterations password_hash_len)
      else
        (.nomem, client, password_hash)
    else
      (.unknown, client, password_hash)

/-- Embedding of `dynsec_auth__pw_hash` (auth.c lines 123–149). With
`new_password = true` it first overwrites the record's salt with fresh random
bytes (`MOSQ_ERR_UNKNOWN` if `RAND_bytes` fails, before anything is stored)
and selects the default work factor; otherwise it reuses the record's stored
iterations (and salt). The rest is `pw_hash_derive`. -/
def dynsec_auth__pw_hash (env : DynsecEnv) (client : DynsecClient) (password : String)
    (password_hash : List Nat) (password_hash_len : Nat) (new_password : Bool) :
    MosqErr × DynsecClient × List Nat :=
  if new_password then
    if env.randOk then
      pw_hash_derive env { client with pw := { client.pw with salt := env.newSalt } }
        password password_hash password_hash_len PW_DEFAULT_ITERATIONS
    else
      (.unknown, client, password_hash)
  else
    pw_hash_derive env client password password_hash password_hash_len
      client.pw.iterations

/-! ## Decision engine -/

/-- Rejection condition of auth.c lines 189–194: the record binds a client id
and the connection's id (`mosquitto_client_id`, `none` = unknowable) is absent
or differs from it. -/
def clientid_mismatch (client : DynsecClient) (connClientid : Option String) : Bool :=
  match client.clientid with
  | none => false
  | some cid =>
      match connClientid with
      | none => true
      | some c => cid != c

/-- Initial contents of the 64-byte stack buffer `password_hash[64]` declared
by the callback (auth.c line 176); its initial contents are never observed,
since the buffer is only read after a successful derivation overwrites it. -/
def stack_buf64 : List Nat := List.replicate 64 0

/-- Tail of the callback after a successful `dynsec_auth__pw_hash` call has
been awaited (auth.c lines 195–247): on anything but `MOSQ_ERR_SUCCESS` from
the hasher the callback defers; on success the recomputed hash is compared to
the stored hash with `memcmp_const`; a mismatch rejects; a match enters the
`WITH_LUA` notification block — a failed `lua_pcall` returns
`MOSQ_ERR_UNKNOWN`, otherwise (hook absent, or hook succeeded with its value
merely logged) `MOSQ_ERR_SUCCESS` is returned. -/
def auth_pw_result (luaHook : Option Bool) (stored : List Nat)
    (res : MosqErr × DynsecClient × List Nat) : MosqErr :=
  match res with
  | (.success, _, password_hash) =>
      if memcmp_const (some stored) (some password_hash) 64 = 0 then
        match luaHook with
        | some false => .unknown
        | _ => .success
      else .auth
  | _ => .plugin_defer

/-- Embedding of `dynsec_auth__basic_auth_callback` (auth.c lines 172–251).
Inputs: the OpenSSL environment, the external directory lookup
(`dynsec_clients__find`), the connection's client id, the Lua notification
hook state (`none` = `userdata == NULL`; `some true` = `lua_pcall` succeeded,
its return value being only logged; `some false` = `lua_pcall` failed), and
the event's username and password (`none` = `NULL`). Control flow follows the
C exactly: missing username/password or an unknown user defer; a disabled
record or a client-id mismatch rejects; with valid password material the hash
is recomputed by `dynsec_auth__pw_hash` (new_password = false) into a fresh
64-byte stack buffer and handed to `auth_pw_result`; without valid password
material the callback defers. -/
def dynsec_auth__basic_auth_callback (env : DynsecEnv)
    (find : String → Option DynsecClient) (connClientid : Option String)
    (luaHook : Option Bool) (username password : Option String) : MosqErr :=
  match username, password with
  | some u, some p =>
      match find u with
      | none => .plugin_defer
      | some client =>
          if client.disabled then .auth
          else if clientid_mismatch client connClientid then .auth
          else if client.pw.valid then
            auth_pw_result luaHook client.pw.password_hash
              (dynsec_auth__pw_hash env client p (stack_buf64) 64 false)
          else .plugin_defer
  | _, _ => .plugin_defer

/-! ## Helper lemmas about the comparator -/

/-- Bitwise or of naturals is zero exactly when both operands are. -/
lemma nat_or_eq_zero_iff (a b : Nat) : a ||| b = 0 ↔ a = 0 ∧ b = 0 := by
  constructor
  · intro h
    have ht : ∀ i, (a.testBit i || b.testBit i) = false := by
      intro i
      have := congrArg (fun x => Nat.testBit x i) h
      simpa [Nat.testBit_lor] using this
    constructor
    · exact Nat.eq_of_testBit_eq fun i => by
        simpa using (Bool.or_eq_false_iff.mp (ht i)).1
    · exact Nat.eq_of_testBit_eq fun i => by
        simpa using (Bool.or_eq_false_iff.mp (ht i)).2
  · rintro ⟨rfl, rfl⟩
    rfl

/-- Folding bitwise-or of `g` over `range n` starting from `init` is zero iff
`init` is zero and every `g i` with `i < n` is zero. -/
lemma foldl_or_eq_zero (g : Nat → Nat) :
    ∀ (n : Nat) (init : Nat),
      ((List.range n).foldl (fun rc i => rc ||| g i) init = 0 ↔
        init = 0 ∧ ∀ i < n, g i = 0) := by
  intro n
  induction n with
  | zero => simp
  | succ m ih =>
      intro init
      rw [List.range_succ, List.foldl_append]
      simp only [List.foldl_cons, List.foldl_nil, ih, nat_or_eq_zero_iff]
      constructor
      · rintro ⟨⟨h0, hg⟩, hm⟩
        refine ⟨h0, fun i hi => ?_⟩
        rcases Nat.lt_succ_iff_lt_or_eq.mp hi with h | h
        · exact hg i h
        · exact h ▸ hm
      · rintro ⟨h0, hall⟩
        exact ⟨⟨h0, fun i hi => hall i (Nat.lt_succ_of_lt hi)⟩,
               hall m (Nat.lt_succ_self m)⟩

/-- The comparator on two non-null buffers returns 0 iff the first `len`
bytes (read with the C's in-bounds indexing, modelled by `getD`) agree. -/
lemma memcmp_const_some_eq_zero (a b : List Nat) (len : Nat) :
    memcmp_const (some a) (some b) len = 0 ↔ ∀ i < len, a.getD i 0 = b.getD i 0 := by
  simp only [memcmp_const, foldl_or_eq_zero, Nat.xor_eq_zero, true_and]

/-- The comparator returns 0 on physically equal buffers. -/
lemma memcmp_const_self (a : List Nat) (len : Nat) :
    memcmp_const (some a) (some a) len = 0 := by
  simp [memcmp_const_some_eq_zero]

/-! ## Helper lemmas about the base64 codec -/

/-- Alphabet lookup inverts character encoding on 6-bit values. -/
lemma binv_bchar : ∀ v < 64, b64inv (b64char v) = some v := by decide

/-- No 6-bit value encodes to the pad character. -/
lemma bchar_ne_pad : ∀ v < 64, b64char v ≠ '=' := by decide

/-- Base64 decoding inverts encoding on any list of bytes. -/
lemma b64_decode_encode (bs : List Nat) :
    (∀ b ∈ bs, b < 256) → b64decodeChars (b64encodeBytes bs) = some bs := by
  induction bs using b64encodeBytes.induct with
  | case1 => intro _; rfl
  | case2 a =>
      intro h
      have ha : a < 256 := h a (by simp)
      have h1 := binv_bchar (a / 4) (by omega)
      have h2 := binv_bchar (a % 4 * 16) (by omega)
      simp [b64encodeBytes, b64decodeChars, h1, h2]
      omega
  | case3 a b =>
      intro h
      have ha : a < 256 := h a (by simp)
      have hb : b < 256 := h b (by simp)
      have h1 := binv_bchar (a / 4) (by omega)
      have h2 := binv_bchar (a % 4 * 16 + b / 16) (by omega)
      have h3 := binv_bchar (b % 16 * 4) (by omega)
      have hne3 := bchar_ne_pad (b % 16 * 4) (by omega)
      simp [b64encodeBytes, b64decodeChars, h1, h2, h3, hne3]
      omega
  | case4 a b c rest ih =>
      intro h
      have ha : a < 256 := h a (by simp)
      have hb : b < 256 := h b (by simp)
      have hc : c < 256 := h c (by simp)
      have hrest : ∀ x ∈ rest, x < 256 := fun x hx => h x (by simp [hx])
      have h1 := binv_bchar (a / 4) (by omega)
      have h2 := binv_bchar (a % 4 * 16 + b / 16) (by omega)
      have h3 := binv_bchar (b % 16 * 4 + c / 64) (by omega)
      have h4 := binv_bchar (c % 64) (by omega)
      have hne3 := bchar_ne_pad (b % 16 * 4 + c / 64) (by omega)
      have hne4 := bchar_ne_pad (c % 64) (by omega)
      simp [b64encodeBytes, b64decodeChars, h1, h2, h3, h4, hne3, hne4, ih hrest]
      omega

/-! ## Claims about the codec -/

/-- C3 (counterexample): for the empty byte buffer the claim fails — the C
decoder treats a decoded length of zero as failure (auth.c line 106), so
`decode(encode([]))` returns 1 with `*decoded = NULL`, `*decoded_len = 0`
instead of reproducing the empty buffer. -/
theorem c3_empty_roundtrip_fails :
    (dynsec_auth__base64_decode (dynsec_auth__base64_encode [])).rc = 1 ∧
    (dynsec_auth__base64_decode (dynsec_auth__base64_encode [])).decoded ≠ some [] := by
  decide

/-- C3 (amended): for every non-empty byte buffer (bytes < 256, any values
0–255 allowed), decoding the encoding succeeds and reproduces the original
bytes and length exactly; for the empty buffer the decode step fails, since
the decoder cannot distinguish an empty decode from invalid input. -/
theorem c3_decode_encode_roundtrip (bs : List Nat) (hne : bs ≠ [])
    (hb : ∀ b ∈ bs, b < 256) :
    dynsec_auth__base64_decode (dynsec_auth__base64_encode bs) =
      { rc := 0, decoded := some bs, decoded_len := (bs.length : Int) } := by
  have hdec : b64decodeChars (dynsec_auth__base64_encode bs) = some bs :=
    b64_decode_encode bs hb
  have hlen : bio_read_len (dynsec_auth__base64_encode bs) = (bs.length : Int) := by
    simp [bio_read_len, hdec]
  have hnz : bs.length ≠ 0 := by simpa [List.length_eq_zero] using hne
  have hpos : ¬ bio_read_len (dynsec_auth__base64_encode bs) ≤ 0 := by
    rw [hlen]; omega
  simp [dynsec_auth__base64_decode, hpos, hlen, hdec]
  exact hne

/-- C3 (witness): the roundtrip theorem applied to a concrete three-byte
buffer containing the extreme byte values 0 and 255. -/
theorem c3_decode_encode_roundtrip_witness :
    dynsec_auth__base64_decode (dynsec_auth__base64_encode [0, 255, 77]) =
      { rc := 0, decoded := some [0, 255, 77], decoded_len := 3 } :=
  c3_decode_encode_roundtrip [0, 255, 77] (by decide) (by decide)

/-- C10: whenever the decode fails because the decoded length is zero or
negative (`bio_read_len s ≤ 0`, covering invalid base64 and legitimately
empty decodes), `dynsec_auth__base64_decode` returns 1 with the caller's
`*decoded` set to `NULL` and `*decoded_len` set to 0, so no partially decoded
bytes are observable. -/
theorem c10_decode_failure_resets_outputs (s : List Char)
    (h : bio_read_len s ≤ 0) :
    dynsec_auth__base64_decode s = { rc := 1, decoded := none, decoded_len := 0 } := by
  simp [dynsec_auth__base64_decode, h]

/-- C10 (witness): the failure-path theorem applied to a concrete non-base64
input. -/
theorem c10_decode_failure_resets_outputs_witness :
    dynsec_auth__base64_decode ['$'] = { rc := 1, decoded := none, decoded_len := 0 } :=
  c10_decode_failure_resets_outputs ['$'] (by decide)

/-! ## Claim about the comparator -/

/-- C5: for all lengths `n` (including 0), `memcmp_const` on two non-null
buffers of `n` bytes reports equal (returns 0) iff the buffers are
byte-identical; and if either buffer reference is null it reports not equal
(a non-zero result). -/
theorem c5_memcmp_const_correct :
    (∀ (a b : List Nat) (n : Nat), a.length = n → b.length = n →
      (memcmp_const (some a) (some b) n = 0 ↔ a = b)) ∧
    (∀ (b : Option (List Nat)) (n : Nat), memcmp_const none b n ≠ 0) ∧
    (∀ (a : Option (List Nat)) (n : Nat), memcmp_const a none n ≠ 0) := by
  refine ⟨fun a b n ha hb => ?_, fun b n => ?_, fun a n => ?_⟩
  · rw [memcmp_const_some_eq_zero]
    constructor
    · intro hall
      apply List.ext_getElem (ha.trans hb.symm)
      intro i h1 h2
      have hi := hall i (ha ▸ h1)
      rwa [List.getD_eq_getElem a 0 h1, List.getD_eq_getElem b 0 h2] at hi
    · rintro rfl
      intro i _
      rfl
  · cases b <;> simp [memcmp_const]
  · cases a <;> simp [memcmp_const]

/-- C5 (witness): the comparator characterization applied to concrete
buffers, including the `n = 0` case and a null reference. -/
theorem c5_memcmp_const_correct_witness :
    (memcmp_const (some [1, 2]) (some [1, 2]) 2 = 0 ↔ ([1, 2] : List Nat) = [1, 2]) ∧
    (memcmp_const (some []) (some []) 0 = 0 ↔ ([] : List Nat) = []) ∧
    memcmp_const none (some [3]) 1 ≠ 0 :=
  ⟨c5_memcmp_const_correct.1 [1, 2] [1, 2] 2 rfl rfl,
   c5_memcmp_const_correct.1 [] [] 0 rfl rfl,
   c5_memcmp_const_correct.2.1 (some [3]) 1⟩

/-! ## Claims about the hasher -/

/-- C4: when setting a new password (`new_password = true`), a failure of the
secure random source aborts the call with `MOSQ_ERR_UNKNOWN` and returns the
credential record exactly as it was — in particular its stored salt and
iterations are unmodified — and leaves the caller's hash buffer untouched. -/
theorem c4_rand_failure_leaves_record_unchanged (env : DynsecEnv)
    (client : DynsecClient) (password : String) (buf : List Nat) (len : Nat)
    (h : env.randOk = false) :
    dynsec_auth__pw_hash env client password buf len true =
      (.unknown, client, buf) := by
  simp [dynsec_auth__pw_hash, h]

/-- C4 (witness): the abort theorem applied to a concrete record and an
environment whose random source fails. -/
theorem c4_rand_failure_leaves_record_unchanged_witness :
    dynsec_auth__pw_hash
      ⟨false, [9, 9], true, true, fun _ _ _ _ => [7]⟩
      ⟨"alice", none, false, ⟨[1, 2], [7], 5, true⟩⟩ "pw" [0] 64 true =
      (.unknown, ⟨"alice", none, false, ⟨[1, 2], [7], 5, true⟩⟩, [0]) :=
  c4_rand_failure_leaves_record_unchanged _ _ _ _ _ rfl

/-- C9: verification calls (`new_password = false`) leave the record's stored
salt and iterations exactly as they were, and when the derivation succeeds
the produced hash is the PBKDF2 derivation under precisely those stored
values — verification never re-randomizes the salt or changes the iteration
count. -/
theorem c9_verify_uses_stored_salt_and_iterations (env : DynsecEnv)
    (client : DynsecClient) (password : String) (buf : List Nat) (len : Nat) :
    (dynsec_auth__pw_hash env client password buf len false).2.1.pw.salt =
      client.pw.salt ∧
    (dynsec_auth__pw_hash env client password buf len false).2.1.pw.iterations =
      client.pw.iterations ∧
    ((dynsec_auth__pw_hash env client password buf len false).1 = .success →
      (dynsec_auth__pw_hash env client password buf len false).2.2 =
        env.pbkdf2 password client.pw.salt client.pw.iterations len) := by
  by_cases h1 : client.pw.iterations < 1 <;>
    by_cases h2 : env.digestOk <;>
      by_cases h3 : env.pbkdf2Ok <;>
        simp [dynsec_auth__pw_hash, pw_hash_derive, h1, h2, h3]

/-- C9 (witness): the frame theorem applied to a concrete record whose
derivation succeeds, with the success hypothesis of the third conjunct
discharged by computation. -/
theorem c9_verify_uses_stored_salt_and_iterations_witness :
    (dynsec_auth__pw_hash ⟨true, [9, 9], true, true, fun _ _ _ _ => [7]⟩
      ⟨"alice", none, false, ⟨[1, 2], [7], 5, true⟩⟩ "pw" [0] 64 false).2.1.pw.salt =
      [1, 2] ∧
    (dynsec_auth__pw_hash ⟨true, [9, 9], true, true, fun _ _ _ _ => [7]⟩
      ⟨"alice", none, false, ⟨[1, 2], [7], 5, true⟩⟩ "pw" [0] 64 false).2.2 = [7] :=
  ⟨(c9_verify_uses_stored_salt_and_iterations _ _ _ _ _).1,
   (c9_verify_uses_stored_salt_and_iterations _ _ _ _ _).2.2 rfl⟩

/-! ## Helper lemma about the verification path of the hasher -/

/-- Verification (`new_password = false`) with a positive stored iteration
count, a resolvable digest and a succeeding PBKDF2 returns success, the
record unchanged, and the derivation under the stored salt and iterations. -/
lemma pw_hash_verify_success (env : DynsecEnv) (client : DynsecClient)
    (password : String) (buf : List Nat) (len : Nat)
    (hiter : 1 ≤ client.pw.iterations) (hdig : env.digestOk = true)
    (hpb : env.pbkdf2Ok = true) :
    dynsec_auth__pw_hash env client password buf len false =
      (.success, client, env.pbkdf2 password client.pw.salt client.pw.iterations len) := by
  have hlt : ¬ (client.pw.iterations < 1) := by omega
  simp [dynsec_auth__pw_hash, pw_hash_derive, hlt, hdig, hpb]

/-- A hasher outcome other than `MOSQ_ERR_SUCCESS` makes the password phase
of the callback defer. -/
lemma auth_pw_result_not_success (luaHook : Option Bool) (stored : List Nat)
    (res : MosqErr × DynsecClient × List Nat) (h : res.1 ≠ .success) :
    auth_pw_result luaHook stored res = .plugin_defer := by
  rcases res with ⟨rc, c2, buf⟩
  cases rc
  case success => exact absurd rfl h
  all_goals rfl

/-- A successful hasher outcome whose hash compares equal to the stored hash
makes the password phase return success, except that a failing Lua hook turns
it into `MOSQ_ERR_UNKNOWN`. -/
lemma auth_pw_result_match (luaHook : Option Bool) (stored : List Nat)
    (res : MosqErr × DynsecClient × List Nat) (h1 : res.1 = .success)
    (h2 : memcmp_const (some stored) (some res.2.2) 64 = 0) :
    auth_pw_result luaHook stored res =
      match luaHook with
      | some false => .unknown
      | _ => .success := by
  rcases res with ⟨rc, c2, buf⟩
  obtain rfl : rc = MosqErr.success := h1
  have h2b : memcmp_const (some stored) (some buf) 64 = 0 := h2
  show (if memcmp_const (some stored) (some buf) 64 = 0 then
          (match luaHook with | some false => MosqErr.unknown | _ => MosqErr.success)
        else MosqErr.auth) =
      (match luaHook with | some false => MosqErr.unknown | _ => MosqErr.success)
  rw [if_pos h2b]

/-! ## Claims about the decision engine -/

/-- C1 (counterexample): the claim fails on the code — with a found, enabled,
identity-unbound record holding password material, an environment in which
the sha512 digest cannot be resolved makes `dynsec_auth__pw_hash` fail, and
the callback falls into the `else` branch of auth.c line 245 and returns
`MOSQ_ERR_PLUGIN_DEFER`, which is DEFER, not the claimed ERROR. -/
theorem c1_derivation_failure_counterexample :
    dynsec_auth__basic_auth_callback
      ⟨true, [], false, true, fun _ _ _ _ => [7]⟩
      (fun _ => some ⟨"alice", none, false, ⟨[1, 2], [7], 5, true⟩⟩)
      none none (some "alice") (some "pw") = .plugin_defer ∧
    MosqErr.plugin_defer ≠ .unknown := by
  decide

/-- C1 (amended): for every found, non-disabled, identity-bound credential
record with password material present, if the hash derivation step fails
during verification (for any reason, including an unresolvable digest), the
decision engine returns DEFER — the failure is folded into the
no-usable-password branch, never surfaced as ERROR. -/
theorem c1_derivation_failure_defers (env : DynsecEnv)
    (find : String → Option DynsecClient) (connClientid : Option String)
    (luaHook : Option Bool) (u p : String) (client : DynsecClient)
    (hfind : find u = some client) (hdis : client.disabled = false)
    (hcid : clientid_mismatch client connClientid = false)
    (hvalid : client.pw.valid = true)
    (hfail : (dynsec_auth__pw_hash env client p (stack_buf64) 64 false).1 ≠ .success) :
    dynsec_auth__basic_auth_callback env find connClientid luaHook
      (some u) (some p) = .plugin_defer := by
  simp [dynsec_auth__basic_auth_callback, hfind, hdis, hcid, hvalid]
  exact auth_pw_result_not_success _ _ _ hfail

/-- C1 (witness): the amended theorem applied to a concrete record and an
environment in which the digest cannot be resolved. -/
theorem c1_derivation_failure_defers_witness :
    dynsec_auth__basic_auth_callback
      ⟨true, [], false, true, fun _ _ _ _ => [7]⟩
      (fun _ => some ⟨"bob", none, false, ⟨[1, 2], [7], 5, true⟩⟩)
      none none (some "bob") (some "pw") = .plugin_defer :=
  c1_derivation_failure_defers _ _ _ _ _ _ _ rfl rfl rfl rfl (by decide)

/-- C2 (counterexample): the claim fails on the code — with the recomputed
hash equal to the stored hash, a registered Lua notification hook whose
`lua_pcall` fails makes the callback return `MOSQ_ERR_UNKNOWN` (auth.c line
229) instead of the already-determined `MOSQ_ERR_SUCCESS`, so the hook can
veto an ACCEPT. -/
theorem c2_hook_failure_counterexample :
    dynsec_auth__basic_auth_callback
      ⟨true, [], true, true, fun _ _ _ _ => [7]⟩
      (fun _ => some ⟨"alice", none, false, ⟨[1, 2], [7], 5, true⟩⟩)
      none (some false) (some "alice") (some "pw") = .unknown ∧
    MosqErr.unknown ≠ .success := by
  decide

/-- C2 (amended): when the recomputed hash equals the stored hash, the
callback returns ACCEPT whenever the notification hook is absent or its
invocation succeeds (a successfully returned hook value is only logged and
never alters the outcome); but when the hook invocation itself fails
(`lua_pcall` error) the callback returns ERROR instead of ACCEPT. -/
theorem c2_accept_unless_hook_fails (env : DynsecEnv)
    (find : String → Option DynsecClient) (connClientid : Option String)
    (luaHook : Option Bool) (u p : String) (client : DynsecClient)
    (hfind : find u = some client) (hdis : client.disabled = false)
    (hcid : clientid_mismatch client connClientid = false)
    (hvalid : client.pw.valid = true)
    (hsucc : (dynsec_auth__pw_hash env client p (stack_buf64) 64 false).1 = .success)
    (hcmp : memcmp_const (some client.pw.password_hash)
      (some (dynsec_auth__pw_hash env client p (stack_buf64) 64 false).2.2) 64 = 0) :
    dynsec_auth__basic_auth_callback env find connClientid luaHook
      (some u) (some p) =
      match luaHook with
      | some false => .unknown
      | _ => .success := by
  simp [dynsec_auth__basic_auth_callback, hfind, hdis, hcid, hvalid]
  exact auth_pw_result_match _ _ _ hsucc hcmp

/-- C2 (witness): the amended theorem applied to a concrete matching record
with a failing hook, showing the resulting ERROR. -/
theorem c2_accept_unless_hook_fails_witness :
    dynsec_auth__basic_auth_callback
      ⟨true, [], true, true, fun _ _ _ _ => [7]⟩
      (fun _ => some ⟨"dora", none, false, ⟨[1, 2], [7], 5, true⟩⟩)
      none (some false) (some "dora") (some "pw") = .unknown :=
  c2_accept_unless_hook_fails _ _ _ _ _ _ _ rfl rfl rfl rfl (by decide) (by decide)

/-- C6: a found record with `disabled = true` is rejected for every supplied
password (including the correct one), every connection identity, every hook
state and every environment. -/
theorem c6_disabled_always_rejects (env : DynsecEnv)
    (find : String → Option DynsecClient) (connClientid : Option String)
    (luaHook : Option Bool) (u p : String) (client : DynsecClient)
    (hfind : find u = some client) (hdis : client.disabled = true) :
    dynsec_auth__basic_auth_callback env find connClientid luaHook
      (some u) (some p) = .auth := by
  simp [dynsec_auth__basic_auth_callback, hfind, hdis]

/-- C6 (witness): the rejection theorem applied to a concrete disabled record
supplied with its correct password. -/
theorem c6_disabled_always_rejects_witness :
    dynsec_auth__basic_auth_callback
      ⟨true, [], true, true, fun _ _ _ _ => [7]⟩
      (fun _ => some ⟨"bob", none, true, ⟨[1, 2], [7], 5, true⟩⟩)
      none none (some "bob") (some "pw") = .auth :=
  c6_disabled_always_rejects _ _ _ _ _ _ _ rfl rfl

/-- C7 (counterexample): the claim fails on the code — user "carol" with
`clientid = "dev-1"`, connecting as "dev-1" with the correct password, is not
accepted when the registered Lua hook's `lua_pcall` fails: the callback
returns `MOSQ_ERR_UNKNOWN` instead of the claimed ACCEPT. -/
theorem c7_clientid_binding_counterexample :
    dynsec_auth__basic_auth_callback
      ⟨true, [], true, true, fun _ _ _ _ => [7]⟩
      (fun _ => some ⟨"carol", some "dev-1", false, ⟨[1, 2], [7], 5, true⟩⟩)
      (some "dev-1") (some false) (some "carol") (some "pw") = .unknown ∧
    MosqErr.unknown ≠ .success := by
  decide

/-- C7 (amended): for a found, non-disabled record whose clientid is set, an
unknowable or differing connection identifier is rejected unconditionally;
and an exactly matching identifier with a correct password (valid password
material, resolvable digest, succeeding PBKDF2, positive stored iterations,
stored hash equal to the derivation of the supplied password) is accepted,
provided the notification hook invocation does not itself fail. -/
theorem c7_clientid_binding (env : DynsecEnv)
    (find : String → Option DynsecClient) (connClientid : Option String)
    (luaHook : Option Bool) (u p : String) (client : DynsecClient) (cid : String)
    (hfind : find u = some client) (hdis : client.disabled = false)
    (hcid : client.clientid = some cid) :
    ((connClientid = none ∨ ∃ c, connClientid = some c ∧ c ≠ cid) →
      dynsec_auth__basic_auth_callback env find connClientid luaHook
        (some u) (some p) = .auth) ∧
    (connClientid = some cid →
      client.pw.valid = true →
      env.digestOk = true → env.pbkdf2Ok = true →
      1 ≤ client.pw.iterations →
      client.pw.password_hash = env.pbkdf2 p client.pw.salt client.pw.iterations 64 →
      luaHook ≠ some false →
      dynsec_auth__basic_auth_callback env find connClientid luaHook
        (some u) (some p) = .success) := by
  constructor
  · intro hconn
    have hmm : clientid_mismatch client connClientid = true := by
      rcases hconn with rfl | ⟨c, rfl, hne⟩
      · simp [clientid_mismatch, hcid]
      · simp [clientid_mismatch, hcid, bne_iff_ne]
        exact fun h => hne h.symm
    simp [dynsec_auth__basic_auth_callback, hfind, hdis, hmm]
  · intro hconn hvalid hdig hpb hiter hpw hlua
    have hmm : clientid_mismatch client connClientid = false := by
      simp [clientid_mismatch, hcid, hconn]
    have hhash := pw_hash_verify_success env client p (stack_buf64) 64 hiter hdig hpb
    have hres := auth_pw_result_match luaHook client.pw.password_hash
      (dynsec_auth__pw_hash env client p (stack_buf64) 64 false)
      (by rw [hhash])
      (by rw [hhash, hpw]; exact memcmp_const_self _ _)
    simp [dynsec_auth__basic_auth_callback, hfind, hdis, hmm, hvalid, hres]

/-- C7 (witness): the amended theorem applied to a concrete "carol" record —
connecting as "dev-2" is rejected, connecting as "dev-1" with the correct
password (and no hook registered) is accepted. -/
theorem c7_clientid_binding_witness :
    dynsec_auth__basic_auth_callback
      ⟨true, [], true, true, fun _ _ _ _ => [7]⟩
      (fun _ => some ⟨"carol", some "dev-1", false, ⟨[1, 2], [7], 5, true⟩⟩)
      (some "dev-2") none (some "carol") (some "pw") = .auth ∧
    dynsec_auth__basic_auth_callback
      ⟨true, [], true, true, fun _ _ _ _ => [7]⟩
      (fun _ => some ⟨"carol", some "dev-1", false, ⟨[1, 2], [7], 5, true⟩⟩)
      (some "dev-1") none (some "carol") (some "pw") = .success :=
  ⟨(c7_clientid_binding _ _ _ _ _ _ _ _ rfl rfl rfl).1
      (Or.inr ⟨"dev-2", rfl, by decide⟩),
   (c7_clientid_binding _ _ _ _ _ _ _ _ rfl rfl rfl).2
      rfl rfl rfl rfl (by decide) rfl (by decide)⟩

/-- C8: the decision engine defers in each claimed case — absent username,
absent password, unknown username, and a found, enabled, identity-satisfying
record with no password material set (`pw.valid = false`). -/
theorem c8_defer_cases (env : DynsecEnv)
    (find : String → Option DynsecClient) (connClientid : Option String)
    (luaHook : Option Bool) :
    (∀ password, dynsec_auth__basic_auth_callback env find connClientid luaHook
      none password = .plugin_defer) ∧
    (∀ username, dynsec_auth__basic_auth_callback env find connClientid luaHook
      username none = .plugin_defer) ∧
    (∀ u p, find u = none →
      dynsec_auth__basic_auth_callback env find connClientid luaHook
        (some u) (some p) = .plugin_defer) ∧
    (∀ u p client, find u = some client → client.disabled = false →
      clientid_mismatch client connClientid = false → client.pw.valid = false →
      dynsec_auth__basic_auth_callback env find connClientid luaHook
        (some u) (some p) = .plugin_defer) := by
  refine ⟨fun password => ?_, fun username => ?_,
          fun u p hfind => ?_, fun u p client hfind hdis hcid hvalid => ?_⟩
  · rfl
  · cases username <;> rfl
  · simp [dynsec_auth__basic_auth_callback, hfind]
  · simp [dynsec_auth__basic_auth_callback, hfind, hdis, hcid, hvalid]

/-- C8 (witness): the defer theorem applied to concrete inputs for all four
cases: missing username, missing password, unknown user "dave", and a known
user with no password set. -/
theorem c8_defer_cases_witness :
    dynsec_auth__basic_auth_callback
      ⟨true, [], true, true, fun _ _ _ _ => [7]⟩ (fun _ => none)
      none none none (some "x") = .plugin_defer ∧
    dynsec_auth__basic_auth_callback
      ⟨true, [], true, true, fun _ _ _ _ => [7]⟩ (fun _ => none)
      none none (some "dave") none = .plugin_defer ∧
    dynsec_auth__basic_auth_callback
      ⟨true, [], true, true, fun _ _ _ _ => [7]⟩ (fun _ => none)
      none none (some "dave") (some "x") = .plugin_defer ∧
    dynsec_auth__basic_auth_callback
      ⟨true, [], true, true, fun _ _ _ _ => [7]⟩
      (fun _ => some ⟨"eve", none, false, ⟨[1, 2], [7], 5, false⟩⟩)
      none none (some "eve") (some "x") = .plugin_defer :=
  ⟨(c8_defer_cases _ _ _ _).1 (some "x"),
   (c8_defer_cases _ _ _ _).2.1 (some "dave"),
   (c8_defer_cases _ _ _ _).2.2.1 "dave" "x" rfl,
   (c8_defer_cases _ _ _ _).2.2.2 "eve" "x" _ rfl rfl rfl rfl⟩

end DynsecAuth
